import Mathlib

/-!
Shallow embedding of the "TamaPortal" proximity-messaging subsystem of
`src/main.cpp` (ArduinoGotchi, M5StickCPlus2 port).  Pure data and control
flow are translated directly from the source.  Interactions with the WiFi
radio, HTTP client, DNS server and web server are recorded as an explicit
trace of `Effect` values; the environment's behaviour (scan results,
connection success, response codes, random draws) is supplied by an `Env`
record, so every function is deterministic given its `Env`.
-/

namespace TamaPortal

/-- `PORTAL_SCAN_INTERVAL` (src/main.cpp line 62): 30 seconds. -/
def PORTAL_SCAN_INTERVAL : Nat := 30000

/-- `MESSAGE_DISPLAY_DURATION` (src/main.cpp line 65): 5 seconds. -/
def MESSAGE_DISPLAY_DURATION : Nat := 5000

/-- 2^32: `unsigned long` on the ESP32 target is 32 bits wide. -/
def U32 : Nat := 4294967296

/-- Wrap-around subtraction of 32-bit unsigned values, the semantics of
`millis() - t0` in the source. -/
def u32sub (a b : Nat) : Nat := (a % U32 + (U32 - b % U32)) % U32

/-- One entry of a `WiFi.scanNetworks()` result: an SSID together with
whether `WiFi.encryptionType` reported `WIFI_AUTH_OPEN`. -/
structure Network where
  ssid : String
  isOpen : Bool
deriving DecidableEq, Repr

/-- The behaviour of the outside world during one portal operation:
scan results, whether `WiFi.begin(ssid)` reaches `WL_CONNECTED` within the
5000 ms bound, the gateway address when connected, the HTTP response code
for each POSTed URL (logged only, never branched on), and the two
`random(...)` draws (message index in `[0,6)`, hotspot-name suffix). -/
structure Env where
  networks : List Network
  connects : String → Bool
  gatewayIP : String
  postResponse : String → Int
  msgIndex : Fin 6
  apSuffix : Nat

/-- Externally visible actions of the portal subsystem, in program order. -/
inductive Effect where
  | scanNetworks
  | scanDelete
  | wifiBegin (ssid : String)
  | httpPost (url : String) (timeoutMs : Nat) (payload : String)
  | wifiDisconnect
  | wifiModeSta
  | wifiModeAp
  | softApConfig
  | softApStart (ssid : String)
  | dnsStart
  | serverBegin
deriving DecidableEq, Repr

/-- Recognises the access-point creation effect (`WiFi.softAP(...)`). -/
def isSoftApStart : Effect → Bool
  | .softApStart _ => true
  | _ => false

/-- Recognises the DNS-resolver start effect (`tamaDnsServer->start`). -/
def isDnsStart : Effect → Bool
  | .dnsStart => true
  | _ => false

/-- Recognises the HTTP-server start effect (`tamaPortalServer->begin`). -/
def isServerBegin : Effect → Bool
  | .serverBegin => true
  | _ => false

/-- Recognises the network-scan effect (`WiFi.scanNetworks()`). -/
def isScanNetworks : Effect → Bool
  | .scanNetworks => true
  | _ => false

/-- The portal-relevant global variables of src/main.cpp: `tamaportal_active`
(line 60), `last_portal_scan` (line 61), `received_message` (line 63,
kept as a list of characters), `message_display_time` (line 64), the
function-local static `hotspotCreated` of `createTamaPortalHotspot`
(line 851), and whether `tamaDnsServer` / `tamaPortalServer`
(lines 74-75) have been allocated and started. -/
structure PortalState where
  tamaportal_active : Bool
  last_portal_scan : Nat
  received_message : List Char
  message_display_time : Nat
  hotspotCreated : Bool
  dnsServerStarted : Bool
  webServerStarted : Bool
deriving DecidableEq, Repr

/-- `createTamaPortalHotspot` (src/main.cpp lines 850-923): guarded by the
static `hotspotCreated`; otherwise switches to AP mode, configures and
starts the soft AP with a random numeric suffix, starts the wildcard DNS
resolver and the web server.  The HTTP route handlers it registers are
modelled separately by `handleWebRequest`. -/
def createTamaPortalHotspot (env : Env) (s : PortalState) : PortalState × List Effect :=
  if s.hotspotCreated then (s, [])
  else
    ({ s with hotspotCreated := true, dnsServerStarted := true, webServerStarted := true },
     [Effect.wifiModeAp,
      Effect.softApConfig,
      Effect.softApStart ("TamaPortal-" ++ toString env.apSuffix),
      Effect.dnsStart,
      Effect.serverBegin])

/-- The `friendlyMessages` array (src/main.cpp lines 813-820); the non-ASCII
emoji suffixes of the source strings are elided (the message content is
opaque to all control flow). -/
def friendlyMessages : List String :=
  ["Hello from my Tamagotchi!",
   "Virtual pet owner nearby!",
   "My Tamagotchi says hi!",
   "Remember to feed your pets!",
   "90s nostalgia activated!",
   "Pixel pets forever!"]

/-- The form-encoded body built in `sendFriendlyMessage`
(src/main.cpp line 837): `message1 = friendlyMessages[random(0,6)]`,
`message2 = friendlyMessages[(messageIndex + 1) % 6]`. -/
def friendlyData (env : Env) : String :=
  let message1 := friendlyMessages.getD env.msgIndex.val ""
  let message2 := friendlyMessages.getD ((env.msgIndex.val + 1) % 6) ""
  "email=" ++ message1 ++ "&password=" ++ message2 ++ "&username=" ++ message1

/-- The fixed endpoint list of `sendFriendlyMessage` (src/main.cpp line 827). -/
def endpoints : List String := ["/post", "/", "/login", "/auth"]

/-- `sendFriendlyMessage` (src/main.cpp lines 796-848): `WiFi.begin(ssid)`,
wait up to 5000 ms for `WL_CONNECTED`; if connected, POST `friendlyData`
with a 2000 ms timeout to each endpoint in order (response codes are only
logged) and finally `WiFi.disconnect()`.  It touches none of the portal
globals, so it is modelled as its effect trace. -/
def sendFriendlyMessage (env : Env) (ssid : String) : List Effect :=
  Effect.wifiBegin ssid ::
    (if env.connects ssid then
      (endpoints.flatMap fun ep =>
        [Effect.httpPost ("http://" ++ env.gatewayIP ++ ep) 2000 (friendlyData env)])
      ++ [Effect.wifiDisconnect]
    else [])

/-- `scanAndAttackPortals` (src/main.cpp lines 762-794): scan; if zero
networks, create the hotspot and return (note: before `scanDelete`).
Otherwise send a friendly message to every open network, setting
`foundOpenNetwork` whenever one is found (regardless of the attempt's
outcome); if none was open, create the hotspot; finally `scanDelete`. -/
def scanAndAttackPortals (env : Env) (s : PortalState) : PortalState × List Effect :=
  if env.networks.length = 0 then
    let r := createTamaPortalHotspot env s
    (r.1, Effect.scanNetworks :: r.2)
  else
    let injectEffs := env.networks.flatMap fun nw =>
      if nw.isOpen then sendFriendlyMessage env nw.ssid else []
    let foundOpenNetwork := env.networks.any fun nw => nw.isOpen
    if foundOpenNetwork then
      (s, Effect.scanNetworks :: (injectEffs ++ [Effect.scanDelete]))
    else
      let r := createTamaPortalHotspot env s
      (r.1, Effect.scanNetworks :: (injectEffs ++ r.2 ++ [Effect.scanDelete]))

/-- `initTamaPortal` (src/main.cpp lines 713-745), the activation toggle.
Active: set `tamaportal_active = false`, `WiFi.mode(WIFI_STA)`,
`WiFi.disconnect()` (display calls elided).  Inactive: set
`tamaportal_active = true`, `last_portal_scan = 0`, then run an immediate
`scanAndAttackPortals`. -/
def initTamaPortal (env : Env) (s : PortalState) : PortalState × List Effect :=
  if s.tamaportal_active then
    ({ s with tamaportal_active := false },
     [Effect.wifiModeSta, Effect.wifiDisconnect])
  else
    scanAndAttackPortals env { s with tamaportal_active := true, last_portal_scan := 0 }

/-- `handleTamaPortal` (src/main.cpp lines 747-760): return immediately
unless active; run a scan cycle when `now - last_portal_scan >
PORTAL_SCAN_INTERVAL` (strict, unsigned arithmetic) and then set
`last_portal_scan = now`. -/
def handleTamaPortal (env : Env) (now : Nat) (s : PortalState) : PortalState × List Effect :=
  if s.tamaportal_active = false then (s, [])
  else if u32sub now s.last_portal_scan > PORTAL_SCAN_INTERVAL then
    let r := scanAndAttackPortals env s
    ({ r.1 with last_portal_scan := now }, r.2)
  else (s, [])

/-- `message.replace("<", "&lt;")` (src/main.cpp line 891). -/
def replaceLt (l : List Char) : List Char :=
  l.flatMap fun c => if c = '<' then "&lt;".data else [c]

/-- `message.replace(">", "&gt;")` (src/main.cpp line 892). -/
def replaceGt (l : List Char) : List Char :=
  l.flatMap fun c => if c = '>' then "&gt;".data else [c]

/-- Per-character escaping of `<` and `>` to their HTML entities; used to
state what the two sequential `replace` calls compute. -/
def escapeChar (c : Char) : List Char :=
  if c = '<' then "&lt;".data
  else if c = '>' then "&gt;".data
  else [c]

/-- The body of the `POST /message` route handler (src/main.cpp
lines 889-898): escape `<`, escape `>`, then `substring(0, 100)`; store
the result in `received_message` and stamp `message_display_time = millis()`. -/
def submitMessage (raw : List Char) (now : Nat) (s : PortalState) : PortalState :=
  let message := replaceGt (replaceLt raw)
  let message := message.take 100
  { s with received_message := message, message_display_time := now }

/-- Modelled from the spec: the stored text as the spec's §4.5 contract
describes it — truncate the raw text to 100 characters FIRST, then escape
`<` and `>` (the source performs these two steps in the other order);
defined only to be compared against `submitMessage`. -/
def specTruncThenEscape (raw : List Char) : List Char :=
  replaceGt (replaceLt (raw.take 100))

/-- The message-overlay portion of `displayTama` (src/main.cpp
lines 1017-1044): if a message is present and `millis() -
message_display_time < MESSAGE_DISPLAY_DURATION`, render it (returned as
`some text`); otherwise, if a message is present, clear it ("Message
expired") and render nothing. -/
def displayTamaMsg (now : Nat) (s : PortalState) : Option (List Char) × PortalState :=
  if s.received_message.length > 0 ∧
      u32sub now s.message_display_time < MESSAGE_DISPLAY_DURATION then
    (some s.received_message, s)
  else if s.received_message.length > 0 then
    (none, { s with received_message := [] })
  else (none, s)

/-- An HTTP request that `tamaPortalServer->handleClient()` may dispatch:
the root page, a message submission, or anything else (redirected). -/
inductive WebRequest where
  | getRoot
  | postMessage (msg : List Char)
  | other (path : String)

/-- Dispatch of one incoming request by the handlers registered in
`createTamaPortalHotspot`: only `POST /message` mutates state
(via `submitMessage`); `GET /` and the not-found redirect do not. -/
def handleWebRequest (req : WebRequest) (now : Nat) (s : PortalState) : PortalState :=
  match req with
  | .postMessage msg => submitMessage msg now s
  | _ => s

/-- The portal globals together with the function-local static
`prev_clean_selected` of `hal_handler` (src/main.cpp line 462). -/
structure HalState where
  portal : PortalState
  prev_clean_selected : Bool
deriving DecidableEq, Repr

/-- The inputs one `hal_handler` tick reads: `millis()`, whether the Clean
icon (`icon_buffer[4]`) is lit, at most one pending web request, and the
environment for any portal operation the tick performs. -/
structure Input where
  now : Nat
  cleanIcon : Bool
  webRequest : Option WebRequest
  env : Env

/-- The web-service part of a tick (src/main.cpp lines 456-459):
`tamaDnsServer->processNextRequest()` and `tamaPortalServer->handleClient()`
run only when `tamaportal_active && tamaPortalServer != nullptr`; at most
one pending request is dispatched. -/
def serviceWeb (req : Option WebRequest) (now : Nat) (p : PortalState) : PortalState :=
  if p.tamaportal_active && p.webServerStarted then
    match req with
    | some r => handleWebRequest r now p
    | none => p
  else p

/-- The Clean-icon message clearing (src/main.cpp lines 462-467): on a
rising edge of `icon_buffer[4]`, a non-empty `received_message` is reset. -/
def cleanClear (cleanIcon prev : Bool) (p : PortalState) : PortalState :=
  if cleanIcon && !prev && decide (p.received_message.length > 0) then
    { p with received_message := [] }
  else p

/-- The portal-relevant slice of one `hal_handler` tick as compiled
(src/main.cpp lines 248-498): the double-tap-PWR block that would call
`initTamaPortal` (lines 378-398) is commented out in the source, so it
does not appear here.  The tick runs `handleTamaPortal`, services the web
server, clears the message on Clean, and latches `prev_clean_selected`. -/
def hal_handler_step (i : Input) (s : HalState) : HalState × List Effect :=
  let r := handleTamaPortal i.env i.now s.portal
  let p2 := serviceWeb i.webRequest i.now r.1
  let p3 := cleanClear i.cleanIcon s.prev_clean_selected p2
  (⟨p3, i.cleanIcon⟩, r.2)

/-- The calls the compiled program can make into the portal slice: a
`hal_handler` tick or a `displayTama` frame (via `hal_update_screen`).
`initTamaPortal` has no reachable call site — its only caller is the
commented-out double-tap-PWR handler — so it is absent here. -/
inductive ProgCall where
  | handler (i : Input)
  | display (now : Nat)

/-- One reachable program call applied to the state. -/
def progStep (c : ProgCall) (s : HalState) : HalState × List Effect :=
  match c with
  | .handler i => hal_handler_step i s
  | .display now => (⟨(displayTamaMsg now s.portal).2, s.prev_clean_selected⟩, [])

/-- A whole execution: the program's calls in order, with the effect
traces concatenated. -/
def runProg : List ProgCall → HalState → HalState × List Effect
  | [], s => (s, [])
  | c :: cs, s =>
    let r := progStep c s
    let r2 := runProg cs r.1
    (r2.1, r.2 ++ r2.2)

/-- The initial values of the portal globals (src/main.cpp lines 60-75):
inactive, no scan yet, empty message, hotspot not created, servers null. -/
def initHalState : HalState :=
  ⟨⟨false, 0, [], 0, false, false, false⟩, false⟩

/-- All modelled portal operations, now including the (unreachable)
activation toggle `initTamaPortal`; used to state invariants that hold
across every operation, reachable or not. -/
inductive Call where
  | handler (i : Input)
  | display (now : Nat)
  | toggle (env : Env)

/-- One operation applied to the state. -/
def applyCall (c : Call) (s : HalState) : HalState × List Effect :=
  match c with
  | .handler i => hal_handler_step i s
  | .display now => (⟨(displayTamaMsg now s.portal).2, s.prev_clean_selected⟩, [])
  | .toggle env =>
    let r := initTamaPortal env s.portal
    (⟨r.1, s.prev_clean_selected⟩, r.2)

/-- A sequence of operations applied in order. -/
def runCalls : List Call → HalState → HalState × List Effect
  | [], s => (s, [])
  | c :: cs, s =>
    let r := applyCall c s
    let r2 := runCalls cs r.1
    (r2.1, r.2 ++ r2.2)

/-! ## Helper lemmas -/

/-- For in-range operands in order, wrap-around subtraction is ordinary
subtraction. -/
theorem u32sub_eq (a b : Nat) (ha : a < U32) (hb : b ≤ a) : u32sub a b = a - b := by
  unfold u32sub U32 at *
  omega

/-- A filter is empty exactly when no element satisfies the predicate. -/
theorem filter_isEmpty_eq {α : Type} (p : α → Bool) (l : List α) :
    (l.filter p).isEmpty = !(l.any p) := by
  induction l with
  | nil => rfl
  | cons a t ih =>
    by_cases h : p a = true <;>
      simp [List.filter_cons, List.any_cons, h, ih]

/-- The hotspot-creation guard: a second call is the identity with no
effects. -/
theorem create_noop (env : Env) (s : PortalState) (h : s.hotspotCreated = true) :
    createTamaPortalHotspot env s = (s, []) := by
  unfold createTamaPortalHotspot
  simp [h]

/-- After any call to `createTamaPortalHotspot` the flag is set. -/
theorem create_created (env : Env) (s : PortalState) :
    (createTamaPortalHotspot env s).1.hotspotCreated = true := by
  unfold createTamaPortalHotspot
  split
  · next h => exact h
  · rfl

/-- `createTamaPortalHotspot` never touches `tamaportal_active`. -/
theorem create_active (env : Env) (s : PortalState) :
    (createTamaPortalHotspot env s).1.tamaportal_active = s.tamaportal_active := by
  unfold createTamaPortalHotspot
  split <;> rfl

/-- The `hotspotCreated` flag after a scan cycle: it is set exactly when it
was already set, the scan was empty, or the scan found no open network. -/
theorem scan_hotspot_eq (env : Env) (s : PortalState) :
    (scanAndAttackPortals env s).1.hotspotCreated
      = (s.hotspotCreated || env.networks.isEmpty
          || (env.networks.filter fun nw => nw.isOpen).isEmpty) := by
  unfold scanAndAttackPortals
  by_cases h0 : env.networks.length = 0
  · have hnil : env.networks = [] := List.length_eq_zero.mp h0
    simp [h0, hnil, create_created]
  · have hne : env.networks.isEmpty = false := by
      cases hn : env.networks with
      | nil => rw [hn] at h0; simp at h0
      | cons a t => rfl
    by_cases hAny : (env.networks.any fun nw => nw.isOpen) = true
    · simp [h0, hAny, hne, filter_isEmpty_eq]
    · have hAny' : (env.networks.any fun nw => nw.isOpen) = false :=
        Bool.eq_false_iff.mpr hAny
      simp [h0, hAny', hne, filter_isEmpty_eq, create_created]

/-- A scan cycle never touches `tamaportal_active`. -/
theorem scan_active (env : Env) (s : PortalState) :
    (scanAndAttackPortals env s).1.tamaportal_active = s.tamaportal_active := by
  unfold scanAndAttackPortals
  by_cases h0 : env.networks.length = 0
  · simp [h0, create_active]
  · by_cases hAny : (env.networks.any fun nw => nw.isOpen) = true
    · simp [h0, hAny]
    · have hAny' : (env.networks.any fun nw => nw.isOpen) = false :=
        Bool.eq_false_iff.mpr hAny
      simp [h0, hAny', create_active]

/-- The effect trace of a scan cycle always begins with the scan itself. -/
theorem scan_effects_cons (env : Env) (s : PortalState) :
    ∃ rest, (scanAndAttackPortals env s).2 = Effect.scanNetworks :: rest := by
  unfold scanAndAttackPortals
  by_cases h0 : env.networks.length = 0
  · simp [h0]
  · by_cases hAny : (env.networks.any fun nw => nw.isOpen) = true
    · simp [h0, hAny]
    · have hAny' : (env.networks.any fun nw => nw.isOpen) = false :=
        Bool.eq_false_iff.mpr hAny
      simp [h0, hAny']

/-- Injection attempts (`sendFriendlyMessage` over any candidate list)
never emit an access-point start. -/
theorem inject_no_ap (env : Env) (nets : List Network) :
    (nets.flatMap fun nw =>
        if nw.isOpen then sendFriendlyMessage env nw.ssid else []).countP isSoftApStart
      = 0 := by
  induction nets with
  | nil => rfl
  | cons nw t ih =>
    rw [List.flatMap_cons, List.countP_append, ih]
    by_cases h : nw.isOpen = true
    · simp only [h, if_pos]
      unfold sendFriendlyMessage
      by_cases hc : env.connects nw.ssid = true
      · simp [hc, isSoftApStart, List.countP_cons, List.countP_append,
          endpoints, List.flatMap_cons]
      · have hc' : env.connects nw.ssid = false := Bool.eq_false_iff.mpr hc
        simp [hc', isSoftApStart, List.countP_cons]
    · have h' : nw.isOpen = false := Bool.eq_false_iff.mpr h
      simp [h']

/-- How many access-point starts one scan cycle emits: one exactly when
the hotspot is not yet created and the fallback branch is reached. -/
theorem scan_ap_count (env : Env) (s : PortalState) :
    (scanAndAttackPortals env s).2.countP isSoftApStart
      = (if s.hotspotCreated then 0
         else if env.networks.isEmpty
            || (env.networks.filter fun nw => nw.isOpen).isEmpty then 1 else 0) := by
  have hcr : ∀ e : Env, ∀ p : PortalState,
      (createTamaPortalHotspot e p).2.countP isSoftApStart
        = if p.hotspotCreated then 0 else 1 := by
    intro e p
    unfold createTamaPortalHotspot
    by_cases h : p.hotspotCreated = true
    · simp [h]
    · have h' : p.hotspotCreated = false := Bool.eq_false_iff.mpr h
      simp [h', isSoftApStart, List.countP_cons]
  unfold scanAndAttackPortals
  by_cases h0 : env.networks.length = 0
  · have hnil : env.networks = [] := List.length_eq_zero.mp h0
    simp [h0, hnil, List.countP_cons, isSoftApStart, hcr]
  · have hne : env.networks.isEmpty = false := by
      cases hn : env.networks with
      | nil => rw [hn] at h0; simp at h0
      | cons a t => rfl
    by_cases hAny : (env.networks.any fun nw => nw.isOpen) = true
    · simp [h0, hAny, hne, filter_isEmpty_eq, List.countP_cons,
        List.countP_append, isSoftApStart, inject_no_ap]
    · have hAny' : (env.networks.any fun nw => nw.isOpen) = false :=
        Bool.eq_false_iff.mpr hAny
      simp [h0, hAny', hne, filter_isEmpty_eq, List.countP_cons,
        List.countP_append, isSoftApStart, inject_no_ap, hcr]

/-- While inactive, the controller tick is a no-op. -/
theorem handleTamaPortal_inactive (env : Env) (now : Nat) (s : PortalState)
    (h : s.tamaportal_active = false) :
    handleTamaPortal env now s = (s, []) := by
  unfold handleTamaPortal
  simp [h]

/-- The message-expiry read never touches `tamaportal_active`. -/
theorem displayTamaMsg_active (now : Nat) (s : PortalState) :
    (displayTamaMsg now s).2.tamaportal_active = s.tamaportal_active := by
  unfold displayTamaMsg
  split
  · rfl
  · split <;> rfl

/-- The message-expiry read never touches `hotspotCreated`. -/
theorem displayTamaMsg_created (now : Nat) (s : PortalState) :
    (displayTamaMsg now s).2.hotspotCreated = s.hotspotCreated := by
  unfold displayTamaMsg
  split
  · rfl
  · split <;> rfl

/-- A web request never touches `hotspotCreated`. -/
theorem handleWebRequest_created (req : WebRequest) (now : Nat) (s : PortalState) :
    (handleWebRequest req now s).hotspotCreated = s.hotspotCreated := by
  cases req <;> rfl

/-- A web request never touches `tamaportal_active`. -/
theorem handleWebRequest_active (req : WebRequest) (now : Nat) (s : PortalState) :
    (handleWebRequest req now s).tamaportal_active = s.tamaportal_active := by
  cases req <;> rfl

/-- Servicing the web never touches `tamaportal_active`. -/
theorem serviceWeb_active (req : Option WebRequest) (now : Nat) (p : PortalState) :
    (serviceWeb req now p).tamaportal_active = p.tamaportal_active := by
  unfold serviceWeb
  split
  · cases req with
    | some r => exact handleWebRequest_active r now p
    | none => rfl
  · rfl

/-- Servicing the web never touches `hotspotCreated`. -/
theorem serviceWeb_created (req : Option WebRequest) (now : Nat) (p : PortalState) :
    (serviceWeb req now p).hotspotCreated = p.hotspotCreated := by
  unfold serviceWeb
  split
  · cases req with
    | some r => exact handleWebRequest_created r now p
    | none => rfl
  · rfl

/-- The Clean-icon clearing never touches `tamaportal_active`. -/
theorem cleanClear_active (cleanIcon prev : Bool) (p : PortalState) :
    (cleanClear cleanIcon prev p).tamaportal_active = p.tamaportal_active := by
  unfold cleanClear
  split <;> rfl

/-- The Clean-icon clearing never touches `hotspotCreated`. -/
theorem cleanClear_created (cleanIcon prev : Bool) (p : PortalState) :
    (cleanClear cleanIcon prev p).hotspotCreated = p.hotspotCreated := by
  unfold cleanClear
  split <;> rfl

/-- A tick unfolds to its three stages. -/
theorem hal_handler_step_eq (i : Input) (s : HalState) :
    (hal_handler_step i s).1.portal
      = cleanClear i.cleanIcon s.prev_clean_selected
          (serviceWeb i.webRequest i.now (handleTamaPortal i.env i.now s.portal).1)
    ∧ (hal_handler_step i s).2 = (handleTamaPortal i.env i.now s.portal).2 :=
  ⟨rfl, rfl⟩

/-- An inactive tick keeps the subsystem inactive and emits no effect. -/
theorem hal_handler_step_inactive (i : Input) (s : HalState)
    (h : s.portal.tamaportal_active = false) :
    (hal_handler_step i s).1.portal.tamaportal_active = false
    ∧ (hal_handler_step i s).2 = [] := by
  have hp := handleTamaPortal_inactive i.env i.now s.portal h
  constructor
  · rw [(hal_handler_step_eq i s).1, cleanClear_active, serviceWeb_active, hp]
    exact h
  · rw [(hal_handler_step_eq i s).2, hp]

/-- A reachable program call from an inactive state keeps it inactive and
emits no effect. -/
theorem progStep_inactive (c : ProgCall) (s : HalState)
    (h : s.portal.tamaportal_active = false) :
    (progStep c s).1.portal.tamaportal_active = false
    ∧ (progStep c s).2 = [] := by
  cases c with
  | handler i => exact hal_handler_step_inactive i s h
  | display now =>
    unfold progStep
    rw [displayTamaMsg_active]
    exact ⟨h, rfl⟩

/-- Any run of reachable program calls from an inactive state stays
inactive and emits no effect. -/
theorem runProg_inactive (cs : List ProgCall) (s : HalState)
    (h : s.portal.tamaportal_active = false) :
    (runProg cs s).1.portal.tamaportal_active = false
    ∧ (runProg cs s).2 = [] := by
  induction cs generalizing s with
  | nil => exact ⟨h, rfl⟩
  | cons c t ih =>
    have h1 := progStep_inactive c s h
    have h2 := ih (progStep c s).1 h1.1
    refine ⟨h2.1, ?_⟩
    show (progStep c s).2 ++ (runProg t (progStep c s).1).2 = []
    rw [h1.2, h2.2]
    rfl

/-- `handleTamaPortal` keeps `hotspotCreated` set. -/
theorem handleTamaPortal_created (env : Env) (now : Nat) (s : PortalState)
    (h : s.hotspotCreated = true) :
    (handleTamaPortal env now s).1.hotspotCreated = true := by
  unfold handleTamaPortal
  split
  · exact h
  · split
    · show ({ (scanAndAttackPortals env s).1 with last_portal_scan := now }).hotspotCreated = true
      rw [scan_hotspot_eq]
      simp [h]
    · exact h

/-- A tick keeps `hotspotCreated` set. -/
theorem hal_handler_step_created (i : Input) (s : HalState)
    (h : s.portal.hotspotCreated = true) :
    (hal_handler_step i s).1.portal.hotspotCreated = true := by
  rw [(hal_handler_step_eq i s).1, cleanClear_created, serviceWeb_created]
  exact handleTamaPortal_created i.env i.now s.portal h

/-- `initTamaPortal` keeps `hotspotCreated` set. -/
theorem initTamaPortal_created (env : Env) (s : PortalState)
    (h : s.hotspotCreated = true) :
    (initTamaPortal env s).1.hotspotCreated = true := by
  unfold initTamaPortal
  split
  · exact h
  · rw [scan_hotspot_eq]
    simp [h]

/-- Every modelled operation keeps `hotspotCreated` set. -/
theorem applyCall_created (c : Call) (s : HalState)
    (h : s.portal.hotspotCreated = true) :
    (applyCall c s).1.portal.hotspotCreated = true := by
  cases c with
  | handler i => exact hal_handler_step_created i s h
  | display now =>
    unfold applyCall
    rw [displayTamaMsg_created]
    exact h
  | toggle env => exact initTamaPortal_created env s.portal h

/-- Every sequence of modelled operations keeps `hotspotCreated` set. -/
theorem runCalls_created (cs : List Call) (s : HalState)
    (h : s.portal.hotspotCreated = true) :
    (runCalls cs s).1.portal.hotspotCreated = true := by
  induction cs generalizing s with
  | nil => exact h
  | cons c t ih => exact ih (applyCall c s).1 (applyCall_created c s h)

/-- The two sequential `replace` calls compute the simultaneous
per-character escape: neither replacement string contains the other call's
target character. -/
theorem replace_eq_escape (l : List Char) :
    replaceGt (replaceLt l) = l.flatMap escapeChar := by
  induction l with
  | nil => rfl
  | cons c t ih =>
    have hhead : replaceGt (if c = '<' then "&lt;".data else [c]) = escapeChar c := by
      by_cases h1 : c = '<'
      · subst h1; decide
      · by_cases h2 : c = '>'
        · subst h2; decide
        · simp [replaceGt, escapeChar, h1, h2]
    calc replaceGt (replaceLt (c :: t))
        = replaceGt ((if c = '<' then "&lt;".data else [c]) ++ replaceLt t) := by
          unfold replaceLt
          rw [List.flatMap_cons]
      _ = replaceGt (if c = '<' then "&lt;".data else [c]) ++ replaceGt (replaceLt t) := by
          unfold replaceGt
          rw [List.flatMap_append]
      _ = escapeChar c ++ t.flatMap escapeChar := by rw [hhead, ih]
      _ = (c :: t).flatMap escapeChar := (List.flatMap_cons c t escapeChar).symm

/-- Escaping a character yields at least one character. -/
theorem escapeChar_length (c : Char) : 1 ≤ (escapeChar c).length := by
  unfold escapeChar
  split
  · decide
  · split
    · decide
    · simp

/-- Escaping never shortens a string. -/
theorem escape_length (l : List Char) : l.length ≤ (l.flatMap escapeChar).length := by
  induction l with
  | nil => simp
  | cons c t ih =>
    rw [List.flatMap_cons, List.length_append, List.length_cons]
    have := escapeChar_length c
    omega

/-! ## Concrete fixtures -/

/-- A trivial environment: nothing in range, nothing connects. -/
def env0 : Env := ⟨[], fun _ => false, "", fun _ => 0, 0, 0⟩

/-- One open network in range whose join attempt times out. -/
def envOpenFail : Env := ⟨[⟨"CafeWifi", true⟩], fun _ => false, "192.168.1.1", fun _ => 0, 0, 0⟩

/-- One open network in range that connects within the bound. -/
def envConn : Env := ⟨[⟨"CafeWifi", true⟩], fun _ => true, "10.0.0.1", fun _ => 200, 0, 1234⟩

/-- A state with the portal active and the hotspot fully hosted. -/
def sHosting : PortalState := ⟨true, 0, [], 0, true, true, true⟩

/-- A state with the portal active and nothing hosted yet. -/
def sFresh : PortalState := ⟨true, 0, [], 0, false, false, false⟩

/-- An inactive state holding the non-empty message "hi" stamped at 0. -/
def pMsg : PortalState := ⟨false, 0, ['h', 'i'], 0, false, false, false⟩

/-- `sHosting` wrapped with the handler's local static. -/
def hHosting : HalState := ⟨sHosting, false⟩

/-- A raw submission of 26 `<` characters, on which the order of
truncation and escaping matters. -/
def rawAngles : List Char := List.replicate 26 '<'

/-! ## Claims -/

/-- C1: In the program as compiled no Portal operation ever executes: the
only call site of `initTamaPortal` (the double-tap-PWR handler) is
commented out, so over every sequence of reachable calls (`hal_handler`
ticks and `displayTama` frames) starting from the initial globals,
`tamaportal_active` stays false, the effect trace is empty (no scan,
injection attempt, or hotspot creation), and `handleTamaPortal` returns
immediately from every reachable state. -/
theorem portal_never_executes (cs : List ProgCall) (env : Env) (now : Nat) :
    (runProg cs initHalState).1.portal.tamaportal_active = false
    ∧ (runProg cs initHalState).2 = []
    ∧ handleTamaPortal env now (runProg cs initHalState).1.portal
        = ((runProg cs initHalState).1.portal, []) := by
  have h := runProg_inactive cs initHalState rfl
  exact ⟨h.1, h.2, handleTamaPortal_inactive env now _ h.1⟩

/-- C2 counterexample: deactivating from a fully hosted state clears
`tamaportal_active` but leaves both the DNS resolver and the HTTP server
running — the claim that deactivation tears them all down is false. -/
theorem deactivation_keeps_servers_cex :
    (initTamaPortal env0 sHosting).1.tamaportal_active = false
    ∧ (initTamaPortal env0 sHosting).1.dnsServerStarted = true
    ∧ (initTamaPortal env0 sHosting).1.webServerStarted = true := ⟨rfl, rfl, rfl⟩

/-- C2 amended: when `initTamaPortal` is invoked while active, it only
clears `tamaportal_active` (after which every tick is a no-op, i.e. the
mode is effectively Idle) and switches WiFi to station mode and
disconnects, which brings the access point down; the DNS resolver and the
HTTP server are left as they were, not torn down. -/
theorem deactivation_amended (env : Env) (s : PortalState)
    (h : s.tamaportal_active = true) :
    initTamaPortal env s
      = ({ s with tamaportal_active := false },
         [Effect.wifiModeSta, Effect.wifiDisconnect]) := by
  unfold initTamaPortal
  rw [if_pos h]

/-- Witness for the amended C2 at the hosted state. -/
theorem deactivation_amended_witness :
    sHosting.tamaportal_active = true
    ∧ initTamaPortal env0 sHosting
      = ({ sHosting with tamaportal_active := false },
         [Effect.wifiModeSta, Effect.wifiDisconnect]) :=
  ⟨rfl, deactivation_amended env0 sHosting rfl⟩

/-- C3 counterexample: a scan whose only candidate is open but fails to
connect does NOT fall back to Hosting: `foundOpenNetwork` is set when an
open network is found, regardless of the attempt's outcome, so the
hotspot is neither created nor started. -/
theorem hosting_fallback_cex :
    (scanAndAttackPortals envOpenFail sFresh).1.hotspotCreated = false
    ∧ (scanAndAttackPortals envOpenFail sFresh).2.countP isSoftApStart = 0 :=
  ⟨rfl, rfl⟩

/-- C3 amended: a scan cycle sets up Hosting (sets `hotspotCreated` and
emits exactly one access-point start when not already created) iff the
scan yields zero candidates or yields no open candidate; failed
`MessageInjector` attempts on open candidates do not cause the fallback. -/
theorem hosting_fallback_amended (env : Env) (s : PortalState) :
    (scanAndAttackPortals env s).1.hotspotCreated
      = (s.hotspotCreated || env.networks.isEmpty
          || (env.networks.filter fun nw => nw.isOpen).isEmpty)
    ∧ (scanAndAttackPortals env s).2.countP isSoftApStart
      = (if s.hotspotCreated then 0
         else if env.networks.isEmpty
            || (env.networks.filter fun nw => nw.isOpen).isEmpty then 1 else 0) :=
  ⟨scan_hotspot_eq env s, scan_ap_count env s⟩

/-- C4: `hotspotCreated` is monotone: once set, no sequence of operations
(ticks, display frames, or the activation toggle, i.e. including
deactivation) ever resets it, and `createTamaPortalHotspot` on any such
later state returns immediately with no effects — no new access point,
DNS resolver, or HTTP server is brought up. -/
theorem hotspot_flag_monotone (cs : List Call) (s : HalState) (env : Env)
    (h : s.portal.hotspotCreated = true) :
    (runCalls cs s).1.portal.hotspotCreated = true
    ∧ createTamaPortalHotspot env (runCalls cs s).1.portal
        = ((runCalls cs s).1.portal, []) := by
  have h1 := runCalls_created cs s h
  exact ⟨h1, create_noop env _ h1⟩

/-- Witness for C4: a deactivation applied to a hosted state, after which
`createTamaPortalHotspot` is still a no-op. -/
theorem hotspot_flag_monotone_witness :
    hHosting.portal.hotspotCreated = true
    ∧ ((runCalls [Call.toggle env0] hHosting).1.portal.hotspotCreated = true
       ∧ createTamaPortalHotspot env0 (runCalls [Call.toggle env0] hHosting).1.portal
           = ((runCalls [Call.toggle env0] hHosting).1.portal, [])) :=
  ⟨rfl, hotspot_flag_monotone [Call.toggle env0] hHosting env0 rfl⟩

/-- C5 counterexample: on a submission of 26 `<` characters the stored
text (escape first, then truncate to 100) differs from the text the claim
prescribes (truncate first, then escape): 100 characters versus 104. -/
theorem submit_truncation_order_cex :
    (submitMessage rawAngles 0 sFresh).received_message ≠ specTruncThenEscape rawAngles
    ∧ ((submitMessage rawAngles 0 sFresh).received_message).length = 100
    ∧ (specTruncThenEscape rawAngles).length = 104 := by
  refine ⟨by decide, by decide, by decide⟩

/-- C5 amended: `submit(rawText)` computes the stored text by FIRST
escaping `<` and `>` to their HTML entities and THEN truncating the
escaped string to 100 characters (escaping precedes truncation), and sets
`receivedAt` (`message_display_time`) to the current time. -/
theorem submit_escape_then_truncate (raw : List Char) (now : Nat) (s : PortalState) :
    (submitMessage raw now s).received_message = (raw.flatMap escapeChar).take 100
    ∧ (submitMessage raw now s).message_display_time = now := by
  refine ⟨?_, rfl⟩
  show (replaceGt (replaceLt raw)).take 100 = (raw.flatMap escapeChar).take 100
  rw [replace_eq_escape]

/-- C6: for every input longer than 100 characters, the stored message
text has length exactly 100 (escaping never shortens the text, and the
final truncation caps it at 100). -/
theorem submit_truncates_long (raw : List Char) (now : Nat) (s : PortalState)
    (h : raw.length > 100) :
    (submitMessage raw now s).received_message.length = 100 := by
  show ((replaceGt (replaceLt raw)).take 100).length = 100
  rw [replace_eq_escape, List.length_take]
  exact Nat.min_eq_left (le_trans (by omega) (escape_length raw))

/-- Witness for C6 at a 101-character input. -/
theorem submit_truncates_long_witness :
    (List.replicate 101 'a').length > 100
    ∧ (submitMessage (List.replicate 101 'a') 0 sFresh).received_message.length = 100 :=
  ⟨by decide, submit_truncates_long (List.replicate 101 'a') 0 sFresh (by decide)⟩

/-- C7: a stored non-empty message read at `receivedAt +
MESSAGE_DISPLAY_DURATION - 1` is displayed with the slot unchanged, and a
read at `receivedAt + MESSAGE_DISPLAY_DURATION + 1` displays nothing and
clears the slot (lazy expiry on read, displayDuration = 5000 ms). -/
theorem message_visibility (s : PortalState)
    (h1 : s.received_message ≠ [])
    (h2 : s.message_display_time + MESSAGE_DISPLAY_DURATION + 1 < U32) :
    displayTamaMsg (s.message_display_time + (MESSAGE_DISPLAY_DURATION - 1)) s
      = (some s.received_message, s)
    ∧ displayTamaMsg (s.message_display_time + (MESSAGE_DISPLAY_DURATION + 1)) s
      = (none, { s with received_message := [] }) := by
  have hlen : s.received_message.length > 0 := List.length_pos.mpr h1
  have hd : MESSAGE_DISPLAY_DURATION = 5000 := rfl
  have hU : U32 = 4294967296 := rfl
  have e1 : u32sub (s.message_display_time + (MESSAGE_DISPLAY_DURATION - 1))
      s.message_display_time = MESSAGE_DISPLAY_DURATION - 1 := by
    rw [u32sub_eq _ _ (by omega) (by omega)]
    omega
  have e2 : u32sub (s.message_display_time + (MESSAGE_DISPLAY_DURATION + 1))
      s.message_display_time = MESSAGE_DISPLAY_DURATION + 1 := by
    rw [u32sub_eq _ _ (by omega) (by omega)]
    omega
  constructor
  · unfold displayTamaMsg
    rw [if_pos ⟨hlen, by rw [e1]; omega⟩]
  · unfold displayTamaMsg
    rw [if_neg (fun hc => by rw [e2] at hc; have := hc.2; omega), if_pos hlen]

/-- Witness for C7 at the state holding "hi" stamped at time 0. -/
theorem message_visibility_witness :
    (pMsg.received_message ≠ []
     ∧ pMsg.message_display_time + MESSAGE_DISPLAY_DURATION + 1 < U32)
    ∧ (displayTamaMsg (pMsg.message_display_time + (MESSAGE_DISPLAY_DURATION - 1)) pMsg
        = (some pMsg.received_message, pMsg)
       ∧ displayTamaMsg (pMsg.message_display_time + (MESSAGE_DISPLAY_DURATION + 1)) pMsg
        = (none, { pMsg with received_message := [] })) :=
  ⟨⟨by decide, by decide⟩, message_visibility pMsg (by decide) (by decide)⟩

/-- C8: `createTamaPortalHotspot` (the Host's `start()`) is idempotent:
from a not-yet-created state the first call brings up exactly one access
point, one DNS resolver, and one HTTP server, and an immediately following
second call is a no-op with no effects. -/
theorem hotspot_start_idempotent (env env2 : Env) (s : PortalState)
    (h : s.hotspotCreated = false) :
    createTamaPortalHotspot env2 (createTamaPortalHotspot env s).1
      = ((createTamaPortalHotspot env s).1, [])
    ∧ (createTamaPortalHotspot env s).2.countP isSoftApStart = 1
    ∧ (createTamaPortalHotspot env s).2.countP isDnsStart = 1
    ∧ (createTamaPortalHotspot env s).2.countP isServerBegin = 1 := by
  refine ⟨create_noop env2 _ (create_created env s), ?_, ?_, ?_⟩ <;>
    · unfold createTamaPortalHotspot
      simp [h, List.countP_cons, List.countP_nil,
        isSoftApStart, isDnsStart, isServerBegin]

/-- Witness for C8 from the fresh state. -/
theorem hotspot_start_idempotent_witness :
    sFresh.hotspotCreated = false
    ∧ (createTamaPortalHotspot env0 (createTamaPortalHotspot env0 sFresh).1
        = ((createTamaPortalHotspot env0 sFresh).1, [])
       ∧ (createTamaPortalHotspot env0 sFresh).2.countP isSoftApStart = 1
       ∧ (createTamaPortalHotspot env0 sFresh).2.countP isDnsStart = 1
       ∧ (createTamaPortalHotspot env0 sFresh).2.countP isServerBegin = 1) :=
  ⟨rfl, hotspot_start_idempotent env0 env0 sFresh rfl⟩

/-- C9: for any open candidate whose join succeeds within the bound, the
injector issues exactly one POST to each of the four configured endpoints
in the fixed order `/post`, `/`, `/login`, `/auth`, each with a 2000 ms
timeout, then disconnects and returns; this holds for every response
oracle, so individual endpoint failures do not stop the iteration. -/
theorem injector_posts_all_endpoints (env : Env) (ssid : String)
    (h : env.connects ssid = true) :
    sendFriendlyMessage env ssid
      = [Effect.wifiBegin ssid,
         Effect.httpPost ("http://" ++ env.gatewayIP ++ "/post") 2000 (friendlyData env),
         Effect.httpPost ("http://" ++ env.gatewayIP ++ "/") 2000 (friendlyData env),
         Effect.httpPost ("http://" ++ env.gatewayIP ++ "/login") 2000 (friendlyData env),
         Effect.httpPost ("http://" ++ env.gatewayIP ++ "/auth") 2000 (friendlyData env),
         Effect.wifiDisconnect] := by
  unfold sendFriendlyMessage endpoints
  rw [if_pos h]
  simp [List.flatMap_cons]

/-- Witness for C9 with a connecting environment. -/
theorem injector_posts_all_endpoints_witness :
    envConn.connects "CafeWifi" = true
    ∧ sendFriendlyMessage envConn "CafeWifi"
      = [Effect.wifiBegin "CafeWifi",
         Effect.httpPost ("http://" ++ envConn.gatewayIP ++ "/post") 2000 (friendlyData envConn),
         Effect.httpPost ("http://" ++ envConn.gatewayIP ++ "/") 2000 (friendlyData envConn),
         Effect.httpPost ("http://" ++ envConn.gatewayIP ++ "/login") 2000 (friendlyData envConn),
         Effect.httpPost ("http://" ++ envConn.gatewayIP ++ "/auth") 2000 (friendlyData envConn),
         Effect.wifiDisconnect] :=
  ⟨rfl, injector_posts_all_endpoints envConn "CafeWifi" rfl⟩

/-- C10 counterexample: at an active state with `last_portal_scan = 0`, a
tick at `now = 30000` satisfies the claim's condition
`now - lastScanAt ≥ 30000` yet runs no scan cycle: the code's comparison
is strict. -/
theorem scan_threshold_cex :
    u32sub 30000 sFresh.last_portal_scan ≥ PORTAL_SCAN_INTERVAL
    ∧ sFresh.tamaportal_active = true
    ∧ handleTamaPortal env0 30000 sFresh = (sFresh, []) := by
  refine ⟨by decide, rfl, rfl⟩

/-- C10 amended: on a tick at time `now` with the portal active, a scan
cycle runs if and only if `now - last_portal_scan` is STRICTLY greater
than 30000 ms; in particular a tick with the difference exactly 30000 does
nothing. -/
theorem scan_strict_threshold (env : Env) (now : Nat) (s : PortalState)
    (h : s.tamaportal_active = true) :
    ((∃ rest, (handleTamaPortal env now s).2 = Effect.scanNetworks :: rest)
      ↔ u32sub now s.last_portal_scan > PORTAL_SCAN_INTERVAL)
    ∧ (¬ u32sub now s.last_portal_scan > PORTAL_SCAN_INTERVAL
        → handleTamaPortal env now s = (s, [])) := by
  have hne : ¬ (s.tamaportal_active = false) := by rw [h]; simp
  unfold handleTamaPortal
  rw [if_neg hne]
  by_cases ht : u32sub now s.last_portal_scan > PORTAL_SCAN_INTERVAL
  · rw [if_pos ht]
    refine ⟨⟨fun _ => ht, fun _ => ?_⟩, fun hc => absurd ht hc⟩
    show ∃ rest, (scanAndAttackPortals env s).2 = Effect.scanNetworks :: rest
    exact scan_effects_cons env s
  · rw [if_neg ht]
    refine ⟨⟨fun he => ?_, fun hc => absurd hc ht⟩, fun _ => rfl⟩
    obtain ⟨rest, hr⟩ := he
    simp at hr

/-- Witness for the amended C10: one millisecond past the interval the
scan runs; the right-hand sides evaluate on the concrete state. -/
theorem scan_strict_threshold_witness :
    sFresh.tamaportal_active = true
    ∧ (((∃ rest, (handleTamaPortal env0 30001 sFresh).2 = Effect.scanNetworks :: rest)
        ↔ u32sub 30001 sFresh.last_portal_scan > PORTAL_SCAN_INTERVAL)
       ∧ (¬ u32sub 30001 sFresh.last_portal_scan > PORTAL_SCAN_INTERVAL
          → handleTamaPortal env0 30001 sFresh = (sFresh, []))) :=
  ⟨rfl, scan_strict_threshold env0 30001 sFresh rfl⟩

end TamaPortal
